import Mathlib

/-!
Verification of the Debug log-panel component
(src/js/src/views/Status/components/Debug/Debug.js).

The component is a React class with no internal state: it renders a
container holding a fixed title, an actions row with two anchor controls
(a play/pause toggle and a replay/reset clear button), a subheading
showing the active log levels (or a dash when the string is empty), and
one preformatted block per log line.  The two click handlers forward to
the externally supplied actions `removeDevLogs` and `updateDevLogging`.

The embedding below mirrors the source:
  * `DebugState` is the `statusDebug` prop shape declared in `propTypes`
    (`levels : string`, `logging : bool`, `logs : string[]`).
  * `Action` records an invocation of one of the two external callables.
  * `Eff` is a state-and-trace semantics for the component methods: the
    state component is the `statusDebug` prop object (which the source
    never writes, so every translated method threads it unchanged), and
    the trace records the action invocations performed.
  * `VNode` is the produced visual tree; anchors carry a `Handler` tag
    identifying the stored bound method (`this.toggle` or `this.clear`),
    whose behaviour on activation is given by `activate`.
  * The `JSVal` layer re-models rendering over untyped JavaScript values
    so that totality under the propTypes precondition is a theorem about
    an `Except` computation rather than a fact built into the types.
-/

namespace DebugPanel

/-- Shape of the `statusDebug` prop, from the `propTypes` declaration:
`levels` a string, `logging` a bool, `logs` an array of strings. -/
structure DebugState where
  levels : String
  logging : Bool
  logs : List String
deriving Repr, DecidableEq

/-- An invocation of one of the two externally supplied callables of the
`actions` prop: `removeDevLogs()` (no arguments) or
`updateDevLogging(enabled)`. -/
inductive Action where
  | removeDevLogs : Action
  | updateDevLogging (enabled : Bool) : Action
deriving Repr, DecidableEq

/-- The three material-ui icons imported by the component. -/
inductive Glyph where
  | avPause : Glyph
  | avPlay : Glyph
  | avReplay : Glyph
deriving Repr, DecidableEq

/-- Tag for a stored bound handler attached to an anchor via `onClick`:
`this.toggle` or `this.clear`. -/
inductive Handler where
  | toggle : Handler
  | clear : Handler
deriving Repr, DecidableEq

/-- The visual tree produced by rendering.  Each constructor corresponds
to one JSX element kind used by the source: `Container`,
`ContainerTitle` (with its `title` prop), `h2` and `div` (with their
`className`), `pre` (with `className`, `key` and its text child), an
anchor `a` (with its `onClick` handler and child), and an icon. -/
inductive VNode where
  | container (children : List VNode) : VNode
  | containerTitle (title : String) : VNode
  | h2 (className : String) (text : String) : VNode
  | div (className : String) (children : List VNode) : VNode
  | pre (className : String) (key : Nat) (text : String) : VNode
  | a (onClick : Handler) (child : VNode) : VNode
  | icon (glyph : Glyph) : VNode

/-- Class names imported from `Debug.css`.  The stylesheet is external;
only the identity of each class matters to the rendered tree. -/
structure DebugStyles where
  subheader : String
  logs : String
  log : String
  actions : String

/-- The `styles` object of the component, with each CSS-module class
named after its key in the source. -/
def styles : DebugStyles :=
  { subheader := "subheader", logs := "logs", log := "log", actions := "actions" }

/-- Semantics of a component method: given the current `statusDebug`
prop it produces a result, the prop state afterwards (the source
contains no write to it, so the translations thread it unchanged), and
the trace of action invocations performed. -/
def Eff (α : Type) : Type := DebugState → α × DebugState × List Action

/-- Run an effectful method on a `statusDebug` snapshot. -/
def Eff.run (m : Eff α) (s : DebugState) : α × DebugState × List Action := m s

instance : Monad Eff where
  pure a := fun s => (a, s, [])
  bind m f := fun s =>
    let r := m s
    let r2 := f r.1 r.2.1
    (r2.1, r2.2.1, r.2.2 ++ r2.2.2)

/-- Read `this.props.statusDebug`. -/
def readProps : Eff DebugState := fun s => (s, s, [])

/-- Invoke one of the callables of `this.props.actions`, recording it in
the trace. -/
def invoke (a : Action) : Eff Unit := fun s => ((), s, [a])

/-- The `(log, idx) => ...` callback semantics of
`Array.prototype.map`, with an explicit starting index. -/
def jsMapIdxFrom (f : α → Nat → β) (i : Nat) : List α → List β
  | [] => []
  | x :: xs => f x i :: jsMapIdxFrom f (i + 1) xs

/-- `xs.map((x, idx) => f x idx)`: map with the element index supplied
as the second callback argument, starting at 0. -/
def jsMapIdx (f : α → Nat → β) (xs : List α) : List β :=
  jsMapIdxFrom f 0 xs

/-- Translation of `clear = () => { this.props.actions.removeDevLogs(); }`. -/
def Debug.clearM : Eff Unit :=
  invoke Action.removeDevLogs

/-- Translation of
`toggle = () => { this.props.actions.updateDevLogging(!this.props.statusDebug.logging); }`. -/
def Debug.toggleM : Eff Unit := do
  let sd ← readProps
  invoke (Action.updateDevLogging (!sd.logging))

/-- Translation of `renderLogs`: one `pre` block per entry of
`statusDebug.logs`, keyed by index, containing the line itself. -/
def Debug.renderLogsM : Eff (List VNode) := do
  let sd ← readProps
  pure (jsMapIdx (fun log idx => VNode.pre styles.log idx log) sd.logs)

/-- Translation of `renderActions`: the toggle anchor shows `AvPause`
when `statusDebug.logging` holds and `AvPlay` otherwise; the clear
anchor always shows `AvReplay`. -/
def Debug.renderActionsM : Eff VNode := do
  let sd ← readProps
  let toggleButton := if sd.logging then VNode.icon Glyph.avPause else VNode.icon Glyph.avPlay
  pure (VNode.div styles.actions
    [ VNode.a Handler.toggle toggleButton,
      VNode.a Handler.clear (VNode.icon Glyph.avReplay) ])

/-- Translation of `render`, with children evaluated in source order:
the fixed title, the actions row, the subheading showing
`statusDebug.levels || '-'` (the empty string is the only falsy value
of type string), and the list of log blocks. -/
def Debug.renderM : Eff VNode := do
  let actionsRow ← Debug.renderActionsM
  let sd ← readProps
  let blocks ← Debug.renderLogsM
  pure (VNode.container
    [ VNode.containerTitle "Node Logs",
      actionsRow,
      VNode.h2 styles.subheader (if sd.levels = "" then "-" else sd.levels),
      VNode.div styles.logs blocks ])

/-- The visual tree rendered from a `statusDebug` snapshot. -/
def Debug.render (s : DebugState) : VNode :=
  (Debug.renderM.run s).1

/-- Behaviour of a stored handler once activated: the anchor tag
resolves to the corresponding bound method. -/
def activate : Handler → Eff Unit
  | Handler.toggle => Debug.toggleM
  | Handler.clear => Debug.clearM

/-- Activating a handler `n` times in a row, with no intervening
re-render or external state update. -/
def activateN (h : Handler) : Nat → Eff Unit
  | 0 => pure ()
  | n + 1 => do
    activate h
    activateN h n

/-- Observation: the toggle control of a rendered tree, the first
anchor of the actions row (the second child of the container), as its
handler and displayed child. -/
def toggleControlOf : VNode → Option (Handler × VNode)
  | VNode.container [_, VNode.div _ (VNode.a h c :: _), _, _] => some (h, c)
  | _ => none

/-- Observation: the clear control of a rendered tree, the second
anchor of the actions row, as its handler and displayed child. -/
def clearControlOf : VNode → Option (Handler × VNode)
  | VNode.container [_, VNode.div _ [_, VNode.a h c], _, _] => some (h, c)
  | _ => none

/-- Observation: the text of the subheading (the `h2` child of the
container). -/
def subheadingTextOf : VNode → Option String
  | VNode.container [_, _, VNode.h2 _ t, _] => some t
  | _ => none

/-- Observation: the blocks of the log list (the children of the final
`div`). -/
def logBlocksOf : VNode → List VNode
  | VNode.container [_, _, _, VNode.div _ blocks] => blocks
  | _ => []

/-- Observation: the text content of a `pre` log block. -/
def blockTextOf : VNode → Option String
  | VNode.pre _ _ t => some t
  | _ => none

/-! Untyped layer: the component performs no validation of its props, so
totality under the propTypes shapes is re-established over a model of
raw JavaScript values, where the operations the source performs
(`.map`, truthiness tests, property access on `statusDebug`) have their
JavaScript semantics, including the ways they can throw. -/

/-- A JavaScript value, restricted to the kinds a malformed prop of
this component could take: `undefined`, `null`, booleans, strings,
arrays, and (opaque, named) functions. -/
inductive JSVal where
  | undef : JSVal
  | nullv : JSVal
  | boolean (b : Bool) : JSVal
  | string (s : String) : JSVal
  | array (elems : List JSVal) : JSVal
  | func (name : String) : JSVal

/-- JavaScript truthiness: `undefined`, `null`, `false` and the empty
string are falsy; every array and function object is truthy. -/
def JSVal.truthy : JSVal → Bool
  | JSVal.undef => false
  | JSVal.nullv => false
  | JSVal.boolean b => b
  | JSVal.string s => !s.isEmpty
  | JSVal.array _ => true
  | JSVal.func _ => true

/-- Text produced when React renders a value as a text child: strings
render verbatim; `undefined`, `null` and booleans render as nothing.
Arrays and functions are outside the modelled precondition and are
mapped to the empty text as a simplification. -/
def JSVal.reactText : JSVal → String
  | JSVal.string s => s
  | _ => ""

/-- The `statusDebug` prop as a raw object with the three expected
keys; a missing key reads as `undefined`. -/
structure JSDebugState where
  levels : JSVal
  logging : JSVal
  logs : JSVal

/-- The `actions` prop as a raw object with the two expected keys. -/
structure JSActions where
  removeDevLogs : JSVal
  updateDevLogging : JSVal

/-- The full props object; `none` models an absent (`undefined` or
`null`) prop, on which property access throws. -/
structure JSProps where
  statusDebug : Option JSDebugState
  actions : Option JSActions

/-- Property access `this.props.statusDebug.<key>` on raw props: throws
a TypeError when `statusDebug` is absent. -/
def getStatusDebug (p : JSProps) : Except String JSDebugState :=
  match p.statusDebug with
  | some sd => Except.ok sd
  | none => Except.error "TypeError: this.props.statusDebug is undefined"

/-- `renderLogs` over raw props: `logs.map((log, idx) => <pre .../>)`
throws a TypeError unless `logs` is an array. -/
def Debug.renderLogsJS (p : JSProps) : Except String (List VNode) := do
  let sd ← getStatusDebug p
  match sd.logs with
  | JSVal.array xs =>
      Except.ok (jsMapIdx (fun log idx => VNode.pre styles.log idx log.reactText) xs)
  | _ => Except.error "TypeError: this.props.statusDebug.logs.map is not a function"

/-- `renderActions` over raw props: the conditional on
`statusDebug.logging` uses JavaScript truthiness. -/
def Debug.renderActionsJS (p : JSProps) : Except String VNode := do
  let sd ← getStatusDebug p
  let toggleButton :=
    if sd.logging.truthy then VNode.icon Glyph.avPause else VNode.icon Glyph.avPlay
  Except.ok (VNode.div styles.actions
    [ VNode.a Handler.toggle toggleButton,
      VNode.a Handler.clear (VNode.icon Glyph.avReplay) ])

/-- `render` over raw props, children evaluated in source order;
`levels || '-'` yields `levels` when truthy and the dash string
otherwise. -/
def Debug.renderJS (p : JSProps) : Except String VNode := do
  let actionsRow ← Debug.renderActionsJS p
  let sd ← getStatusDebug p
  let subheading := if sd.levels.truthy then sd.levels else JSVal.string "-"
  let blocks ← Debug.renderLogsJS p
  Except.ok (VNode.container
    [ VNode.containerTitle "Node Logs",
      actionsRow,
      VNode.h2 styles.subheader subheading.reactText,
      VNode.div styles.logs blocks ])

/-- A raw props object that is well formed per the propTypes
declaration: `levels` a string, `logging` a boolean, `logs` an array of
strings, and both action callables present. -/
def toJSProps (s : DebugState) (rdl udl : String) : JSProps :=
  { statusDebug := some
      { levels := JSVal.string s.levels,
        logging := JSVal.boolean s.logging,
        logs := JSVal.array (s.logs.map JSVal.string) },
    actions := some
      { removeDevLogs := JSVal.func rdl, updateDevLogging := JSVal.func udl } }

/-- A concrete snapshot used as witness input. -/
def sampleState : DebugState :=
  { levels := "INFO,ERROR", logging := true, logs := ["a", "b"] }

/-! Helper lemmas. -/

/-- Running a bind threads the state through the first computation and
concatenates the traces. -/
theorem Eff.run_bind (m : Eff α) (f : α → Eff β) (s : DebugState) :
    (m >>= f).run s =
      (((f (m.run s).1).run (m.run s).2.1).1,
       ((f (m.run s).1).run (m.run s).2.1).2.1,
       (m.run s).2.2 ++ ((f (m.run s).1).run (m.run s).2.1).2.2) := rfl

/-- Running the translated `toggle` handler emits the single
`updateDevLogging` invocation and leaves the props unchanged. -/
theorem Debug.toggleM_run (s : DebugState) :
    Debug.toggleM.run s = ((), s, [Action.updateDevLogging (!s.logging)]) := rfl

/-- The rendered tree written out explicitly. -/
theorem Debug.render_eq (s : DebugState) :
    Debug.render s = VNode.container
      [ VNode.containerTitle "Node Logs",
        VNode.div styles.actions
          [ VNode.a Handler.toggle
              (if s.logging then VNode.icon Glyph.avPause else VNode.icon Glyph.avPlay),
            VNode.a Handler.clear (VNode.icon Glyph.avReplay) ],
        VNode.h2 styles.subheader (if s.levels = "" then "-" else s.levels),
        VNode.div styles.logs
          (jsMapIdx (fun log idx => VNode.pre styles.log idx log) s.logs) ] := rfl

/-- Indexed map preserves length. -/
theorem jsMapIdxFrom_length (f : α → Nat → β) (l : List α) :
    ∀ i, (jsMapIdxFrom f i l).length = l.length := by
  induction l with
  | nil => intro i; rfl
  | cons x xs ih => intro i; simp [jsMapIdxFrom, ih]

/-- The texts of the log blocks built by `renderLogs` are exactly the
log lines, in order. -/
theorem jsMapIdxFrom_pre_texts (c : String) (l : List String) :
    ∀ i, (jsMapIdxFrom (fun log idx => VNode.pre c idx log) i l).map blockTextOf
      = l.map some := by
  induction l with
  | nil => intro i; rfl
  | cons x xs ih => intro i; simp [jsMapIdxFrom, blockTextOf, ih]

/-- Indexed map over a mapped list fuses the two functions. -/
theorem jsMapIdxFrom_map (f : β → Nat → γ) (g : α → β) (l : List α) :
    ∀ i, jsMapIdxFrom f i (l.map g) = jsMapIdxFrom (fun x n => f (g x) n) i l := by
  induction l with
  | nil => intro i; rfl
  | cons x xs ih => intro i; simp [jsMapIdxFrom, ih]

/-- Over well-formed raw props, `renderLogs` succeeds and produces the
same blocks as the typed translation. -/
theorem renderLogsJS_ok (s : DebugState) (rdl udl : String) :
    Debug.renderLogsJS (toJSProps s rdl udl) =
      Except.ok (jsMapIdx (fun log idx => VNode.pre styles.log idx log) s.logs) :=
  congrArg Except.ok (jsMapIdxFrom_map _ _ _ 0)

/-- Over well-formed raw props, `renderActions` succeeds and produces
the same actions row as the typed translation. -/
theorem renderActionsJS_ok (s : DebugState) (rdl udl : String) :
    Debug.renderActionsJS (toJSProps s rdl udl) =
      Except.ok (VNode.div styles.actions
        [ VNode.a Handler.toggle
            (if s.logging then VNode.icon Glyph.avPause else VNode.icon Glyph.avPlay),
          VNode.a Handler.clear (VNode.icon Glyph.avReplay) ]) := rfl

/-- The subheading text computed over raw values agrees with the typed
computation: the empty string is the only falsy string. -/
theorem subheadingJS_text (levels : String) :
    (if (JSVal.string levels).truthy then JSVal.string levels
     else JSVal.string "-").reactText
      = (if levels = "" then "-" else levels) := by
  by_cases hl : levels = ""
  · subst hl; rfl
  · have hne : levels.isEmpty = false := by
      by_contra hcon
      exact hl ((String.isEmpty_iff levels).1 (Bool.of_not_eq_false hcon))
    simp [JSVal.truthy, JSVal.reactText, hne, hl]

/-! Claim theorems. -/

/-- C1: for every DebugState, the rendered toggle control shows the
pause glyph when `logging` is true and the play glyph when `logging` is
false. -/
theorem toggle_glyph_reflects_logging (s : DebugState) :
    toggleControlOf (Debug.render s) =
      some (Handler.toggle,
        VNode.icon (if s.logging then Glyph.avPause else Glyph.avPlay)) := by
  cases s with
  | mk levels logging logs => cases logging <;> rfl

/-- C2: for every ordered sequence of log lines, the rendered log list
has exactly one block per line, in the same order, and each block text
equals the corresponding line exactly. -/
theorem log_blocks_verbatim (s : DebugState) :
    (logBlocksOf (Debug.render s)).length = s.logs.length ∧
    (logBlocksOf (Debug.render s)).map blockTextOf = s.logs.map some :=
  ⟨jsMapIdxFrom_length _ _ 0, jsMapIdxFrom_pre_texts _ _ 0⟩

/-- C3: the subheading renders the dash placeholder exactly when
`levels` is the empty string (the only falsy string), and `levels`
verbatim otherwise. -/
theorem subheading_levels_or_dash (s : DebugState) :
    subheadingTextOf (Debug.render s) =
      some (if s.levels = "" then "-" else s.levels) := rfl

/-- C4: the toggle control carries the toggle handler, and activating
it at any snapshot performs exactly one action invocation, which is
`updateDevLogging` applied to the negation of the snapshot value of
`logging`, leaving the props unchanged. -/
theorem toggle_invokes_negation (s : DebugState) :
    (toggleControlOf (Debug.render s)).map Prod.fst = some Handler.toggle ∧
    (activate Handler.toggle).run s =
      ((), s, [Action.updateDevLogging (!s.logging)]) :=
  ⟨rfl, rfl⟩

/-- C5: the clear control carries the clear handler, and activating it
at any snapshot performs exactly one action invocation, which is
`removeDevLogs` (a nullary action), regardless of the snapshot. -/
theorem clear_invokes_removeDevLogs (s : DebugState) :
    (clearControlOf (Debug.render s)).map Prod.fst = some Handler.clear ∧
    (activate Handler.clear).run s = ((), s, [Action.removeDevLogs]) :=
  ⟨rfl, rfl⟩

/-- C6: rendering is a pure, deterministic function of the input
props: equal inputs give identical trees, rendering stores nothing (the
props state after a render pass is the input), and a second render pass
from the post-render state yields the identical tree. -/
theorem render_deterministic_stateless (s1 s2 : DebugState) (h : s1 = s2) :
    Debug.render s1 = Debug.render s2 ∧
    (Debug.renderM.run s1).2.1 = s1 ∧
    (Debug.renderM.run ((Debug.renderM.run s1).2.1)).1 = (Debug.renderM.run s1).1 := by
  subst h; exact ⟨rfl, rfl, rfl⟩

/-- Witness for C6 at a concrete snapshot. -/
theorem render_deterministic_stateless_witness :
    Debug.render sampleState = Debug.render sampleState ∧
    (Debug.renderM.run sampleState).2.1 = sampleState ∧
    (Debug.renderM.run ((Debug.renderM.run sampleState).2.1)).1
      = (Debug.renderM.run sampleState).1 :=
  render_deterministic_stateless sampleState sampleState rfl

/-- C7: rendering neither mutates the props nor invokes any action;
each handler leaves the props unchanged, and the only side effects of
the component are the single specified invocation per activation. -/
theorem frame_no_mutation_no_extra_effects (s : DebugState) :
    (Debug.renderM.run s).2.1 = s ∧
    (Debug.renderM.run s).2.2 = [] ∧
    ((activate Handler.toggle).run s).2.1 = s ∧
    ((activate Handler.clear).run s).2.1 = s ∧
    ((activate Handler.toggle).run s).2.2 = [Action.updateDevLogging (!s.logging)] ∧
    ((activate Handler.clear).run s).2.2 = [Action.removeDevLogs] :=
  ⟨rfl, rfl, rfl, rfl, rfl, rfl⟩

/-- C8: over raw JavaScript values, rendering any well-formed props
(string `levels`, boolean `logging`, string-array `logs`, both action
callables present) raises no error and agrees with the typed
rendering. -/
theorem renderJS_total_on_wellformed (s : DebugState) (rdl udl : String) :
    Debug.renderJS (toJSProps s rdl udl) = Except.ok (Debug.render s) := by
  show (Debug.renderActionsJS (toJSProps s rdl udl) >>= fun actionsRow =>
    getStatusDebug (toJSProps s rdl udl) >>= fun sd =>
    Debug.renderLogsJS (toJSProps s rdl udl) >>= fun blocks =>
    Except.ok (VNode.container
      [ VNode.containerTitle "Node Logs",
        actionsRow,
        VNode.h2 styles.subheader
          (if sd.levels.truthy then sd.levels else JSVal.string "-").reactText,
        VNode.div styles.logs blocks ])) = Except.ok (Debug.render s)
  rw [renderActionsJS_ok, renderLogsJS_ok]
  show Except.ok (VNode.container
    [ VNode.containerTitle "Node Logs",
      VNode.div styles.actions
        [ VNode.a Handler.toggle
            (if s.logging then VNode.icon Glyph.avPause else VNode.icon Glyph.avPlay),
          VNode.a Handler.clear (VNode.icon Glyph.avReplay) ],
      VNode.h2 styles.subheader
        (if (JSVal.string s.levels).truthy then JSVal.string s.levels
         else JSVal.string "-").reactText,
      VNode.div styles.logs
        (jsMapIdx (fun log idx => VNode.pre styles.log idx log) s.logs) ])
    = Except.ok (Debug.render s)
  rw [subheadingJS_text, Debug.render_eq]

/-- C9: for every DebugState, the clear control shows the replay glyph,
independent of `logging`, `levels` and `logs`. -/
theorem clear_glyph_always_replay (s : DebugState) :
    clearControlOf (Debug.render s) =
      some (Handler.clear, VNode.icon Glyph.avReplay) := rfl

/-- C10: activating the toggle any number of times without an
intervening new snapshot passes the same argument, the negation of the
snapshot value of `logging`, on every activation, and never changes the
snapshot itself. -/
theorem toggle_never_optimistic (s : DebugState) (n : Nat) :
    (activateN Handler.toggle n).run s =
      ((), s, List.replicate n (Action.updateDevLogging (!s.logging))) := by
  induction n with
  | zero => rfl
  | succ k ih =>
    simp [activateN, Eff.run_bind, activate, Debug.toggleM_run, ih, List.replicate_succ]

end DebugPanel
